import Mathlib

/-
  Verification development for the osm-mcp-puca repository.

  The Python sources are shallowly embedded in Lean: Python floats are
  modelled as exact rationals, dictionaries as association lists, and a
  Python exception as the error branch of an Except value.  External
  collaborators (the forward and reverse geocoder, the route-distance
  service and the spatial store) are modelled by explicit parameters that
  carry the value the collaborator would have returned; the transcendental
  cosine that appears in the bounding-box computation is likewise passed in
  as the rational value of the float that math.cos of math.radians of the
  latitude evaluates to.
-/

set_option allowUnsafeReducibility true in
attribute [semireducible] Rat.inv Rat.mul Rat.add Rat.sub Rat.ofScientific

namespace Puca

/-- Equality of Except values is decidable when both components have
decidable equality; this lets concrete runs of the embedded functions be
settled by decide. -/
instance {ε α : Type} [DecidableEq ε] [DecidableEq α] : DecidableEq (Except ε α) := fun x y =>
  match x, y with
  | Except.ok a, Except.ok b =>
    if h : a = b then isTrue (by rw [h]) else isFalse (by simp [h])
  | Except.error a, Except.error b =>
    if h : a = b then isTrue (by rw [h]) else isFalse (by simp [h])
  | Except.ok _, Except.error _ => isFalse (by simp)
  | Except.error _, Except.ok _ => isFalse (by simp)

/-- Association-list lookup modelling a Python dict read via tags.get(k),
which yields the first binding of the key or nothing. -/
def tagsGet (tags : List (String × String)) (k : String) : Option String :=
  (tags.find? (fun p => p.1 == k)).map (fun p => p.2)

/-- Python tags.get(k, default). -/
def tagsGetD (tags : List (String × String)) (k d : String) : String :=
  (tagsGet tags k).getD d

/-- Python tags[k]: a missing key raises KeyError. -/
def dictGetE (tags : List (String × String)) (k : String) : Except String String :=
  match tagsGet tags k with
  | some v => Except.ok v
  | none => Except.error ("KeyError: " ++ k)

/-- Python abs on a float. -/
def ratAbs (q : ℚ) : ℚ :=
  if q < 0 then -q else q

/-- Python int(x) on a float truncates toward zero. -/
def ratTrunc (q : ℚ) : ℤ :=
  Int.tdiv q.num (q.den : ℤ)

/-- Python math.fmod: remainder with the sign of the dividend,
x - y * trunc (x / y). -/
def fmodQ (x y : ℚ) : ℚ :=
  x - y * (ratTrunc (x / y) : ℚ)

/-- geopy point normalization of an angle x into the range from -limit
(inclusive) to limit (exclusive), as used for longitudes. -/
def normalizeAngle (x limit : ℚ) : ℚ :=
  let double_limit := limit * 2
  let modulo := fmodQ x double_limit
  if modulo < -limit then modulo + double_limit
  else if limit ≤ modulo then modulo - double_limit
  else modulo

/-- geopy Point construction only rewrites a longitude whose absolute value
exceeds 180; otherwise the longitude is kept as given. -/
def pyLonNormalize (lon : ℚ) : ℚ :=
  if 180 < ratAbs lon then normalizeAngle lon 180 else lon

/-- geopy Point(latitude, longitude): a latitude outside the closed range
from -90 to 90 raises ValueError; the longitude is normalized. -/
def pointNew (lat lon : ℚ) : Except String (ℚ × ℚ) :=
  if 90 < ratAbs lat then
    Except.error "ValueError: Latitude must be in the [-90; 90] range."
  else
    Except.ok (lat, pyLonNormalize lon)

/-- puca.models.Coordinates. -/
structure Coordinates where
  lat : ℚ
  lon : ℚ
deriving DecidableEq, Repr

/-- puca.models.BoundingBox. -/
structure BoundingBox where
  top_left_lat : ℚ
  top_left_lon : ℚ
  bottom_right_lat : ℚ
  bottom_right_lon : ℚ
deriving DecidableEq, Repr

/-- utils.get_bounding_box(lat, lon, distance).  The parameter c carries the
float value of math.cos applied to math.radians of lat, which Lean models as
an input because the computable fragment has no cosine; every other step is
the exact rational image of the Python float computation.  The three Point
constructions (center, top left, bottom right) can each raise, which the
Except error branch models; a longitude beyond 180 in absolute value is
wrapped by the Point normalization. -/
def get_bounding_box (c lat lon distance : ℚ) : Except String BoundingBox :=
  match pointNew lat lon with
  | Except.error e => Except.error e
  | Except.ok _center =>
    let lat_offset := distance / 111000
    let lon_offset := distance / (111000 * ratAbs c)
    match pointNew (lat + lat_offset) (lon - lon_offset) with
    | Except.error e => Except.error e
    | Except.ok top_left =>
      match pointNew (lat - lat_offset) (lon + lon_offset) with
      | Except.error e => Except.error e
      | Except.ok bottom_right =>
        Except.ok
          { top_left_lat := top_left.1
            top_left_lon := top_left.2
            bottom_right_lat := bottom_right.1
            bottom_right_lon := bottom_right.2 }

/-- Concrete stand-in for the Python textual rendering of a float inside an
f-string, used to instantiate format parameters at concrete inputs. -/
def showRat (q : ℚ) : String :=
  toString q

/-- utils.get_bounds_by_address(address, distance).  The geocoded parameter
carries the value returned by the external forward geocoder
(get_address_coordinates): some coordinates, or none when the address does
not resolve.  The source builds a return_text string (Address not found in
the none case) but discards it and unconditionally evaluates coords.lat,
which raises AttributeError on None. -/
def get_bounds_by_address (fmt : ℚ → String) (c : ℚ)
    (geocoded : Option Coordinates) (distance : ℚ) : Except String BoundingBox :=
  let _return_text : String :=
    match geocoded with
    | some coords => "Latitude: " ++ fmt coords.lat ++ ", Longitude: " ++ fmt coords.lon
    | none => "Address not found"
  match geocoded with
  | none => Except.error "AttributeError: NoneType object has no attribute lat"
  | some coords => get_bounding_box c coords.lat coords.lon distance

/-- utils.query_overpass(query, bounding_box): the query document built from
the fixed f-string template.  The fmt parameter carries the Python textual
rendering of a float inside an f-string. -/
def query_overpass_doc (fmt : ℚ → String) (query : String) (bounding_box : BoundingBox) : String :=
  "\n    [out:json];\n    (\n    " ++ query ++ " (" ++ fmt bounding_box.bottom_right_lat ++
    ", " ++ fmt bounding_box.top_left_lon ++ ", " ++ fmt bounding_box.top_left_lat ++
    ", " ++ fmt bounding_box.bottom_right_lon ++ ");\n    );\n    out body;\n    "

/-- Modelled from the spec: the fixed template with an output-format
directive, the filter fragment applied inside a bounding clause whose four
numeric parameters appear in the order south latitude, west longitude,
north latitude, east longitude, followed by the output-verbosity directive. -/
def overpass_template_spec (fmt : ℚ → String) (filter : String)
    (south west north east : ℚ) : String :=
  "\n    [out:json];\n    (\n    " ++ filter ++ " (" ++ fmt south ++
    ", " ++ fmt west ++ ", " ++ fmt north ++
    ", " ++ fmt east ++ ");\n    );\n    out body;\n    "

/-- An OpenStreetMap node as parsed from the spatial store response. -/
structure OsmNode where
  id : ℕ
  lat : ℚ
  lon : ℚ
  tags : List (String × String)
deriving DecidableEq, Repr

/-- An OpenStreetMap way or relation as parsed from the spatial store
response: only its id and tags are read by the tools. -/
structure OsmWay where
  id : ℕ
  tags : List (String × String)
deriving DecidableEq, Repr

/-- The if/elif chain of amenity.get_amenity mapping a category name to its
Overpass filter fragment; the final else yields nothing. -/
def amenity_query_string (amenity : String) : Option String :=
  if amenity = "parking" then some "nwr[\"amenity\"=\"parking\"]"
  else if amenity = "toilets" then some "nwr[\"amenity\"=\"toilets\"]"
  else if amenity = "community_centre" then some "nwr[\"amenity\"=\"community_centre\"]"
  else if amenity = "post_office" then some "nwr[\"amenity\"=\"post_office\"]"
  else if amenity = "cafe" then some "nwr[\"amenity\"=\"cafe\"]"
  else if amenity = "fast_food" then some "nwr[\"amenity\"=\"fast_food\"]"
  else none

/-- The observable outcome of amenity.get_amenity: either the early-return
error string for an unknown category, issued before any network call, or
the single spatial query document sent to the store. -/
inductive AmenityResult where
  | invalid (msg : String)
  | queried (doc : String)
deriving DecidableEq, Repr

/-- amenity.get_amenity(amenity, bounding_box). -/
def get_amenity (fmt : ℚ → String) (amenity : String) (bounding_box : BoundingBox) : AmenityResult :=
  match amenity_query_string amenity with
  | none => AmenityResult.invalid ("Amenity " ++ amenity ++ " is not valid.")
  | some query_string => AmenityResult.queried (query_overpass_doc fmt query_string bounding_box)

/-- The spatial queries a get_amenity call sends to the external store. -/
def queriesIssued : AmenityResult → List String
  | AmenityResult.invalid _ => []
  | AmenityResult.queried doc => [doc]

/-- The fixed closed amenity category set of amenity.get_amenity. -/
def amenityCategories : List String :=
  ["parking", "toilets", "community_centre", "post_office", "cafe", "fast_food"]

/-- Python truthiness of tags.get(k): a missing key or an empty string is
falsy. -/
def pyTruthyGet (tags : List (String × String)) (k : String) : Option String :=
  match tagsGet tags k with
  | some v => if v = "" then none else some v
  | none => none

/-- The selective tag listing of server.get_parking for one way. -/
def parking_way_text (way : OsmWay) : String :=
  let piece := fun (label k : String) =>
    match pyTruthyGet way.tags k with
    | some v => label ++ ": " ++ v ++ ", "
    | none => ""
  piece "Name" "name" ++ piece "Type" "parking" ++ piece "Access" "access" ++
    piece "Operator" "operator" ++ piece "Capacity" "capacity" ++
    piece "Cost" "fee" ++ piece "Surface Type" "surface"

/-- server.get_parking(address, distance).  ways carries the ways of the
parsed spatial query response. -/
def get_parking (fmt : ℚ → String) (c : ℚ) (geocoded : Option Coordinates)
    (ways : List OsmWay) (distance : ℕ) (address : String) : Except String String :=
  match get_bounds_by_address fmt c geocoded (distance : ℚ) with
  | Except.error e => Except.error e
  | Except.ok _bounding_box =>
    let return_text := "\nThere are " ++ toString ways.length ++
      " parking amenities within " ++ toString distance ++ " metres of " ++ address ++ "."
    let return_text := ways.foldl
      (fun acc w => acc ++ "\n " ++ parking_way_text w ++
        " URL: https://openstreetmap.org/way/" ++ toString w.id) return_text
    Except.ok return_text

/-- The exact rational value of the double-precision float math.pi. -/
def piFloat : ℚ := 884279719003555 / 281474976710656

/-- server.get_vacant_buildings: area_sq_km = math.pi * (distance * distance)
divided by one million. -/
def area_sq_km (distance : ℚ) : ℚ :=
  piFloat * (distance * distance) / 1000000

/-- server.get_vacant_buildings: ratio of matched ways per square kilometre,
guarded to 0 when the area is not positive. -/
def vacant_ratio (nWays : ℕ) (distance : ℚ) : ℚ :=
  if 0 < area_sq_km distance then (nWays : ℚ) / area_sq_km distance else 0

/-- Python f-string formatting of a float with two decimal places, modelled
over the exact rational value by rounding half away from zero toward plus
infinity; it agrees with the float formatting at every nonnegative value
considered here, none of which sits on a rounding tie. -/
def fmt2dp (q : ℚ) : String :=
  let n : ℤ := Rat.floor (q * 100 + 1 / 2)
  let whole := n / 100
  let frac := (n % 100).natAbs
  toString whole ++ "." ++ (if frac < 10 then "0" ++ toString frac else toString frac)

/-- The density-ratio line of server.get_vacant_buildings. -/
def vacant_ratio_line (nWays : ℕ) (distance : ℚ) : String :=
  "This corresponds to a ratio of " ++ fmt2dp (vacant_ratio nWays distance) ++
    " vacant buildings per square kilometer.\n"

/-- The value get_distance_between_points hands back: the route distance in
metres on a 200 response, or the literal string Unknown otherwise. -/
inductive DistResult where
  | metres (m : ℚ)
  | unknown
deriving DecidableEq, Repr

/-- Python int(x) applied to the value get_distance_between_points returned:
a float truncates toward zero, while the string Unknown raises ValueError. -/
def py_int_of_dist : DistResult → Except String ℤ
  | DistResult.metres m => Except.ok (ratTrunc m)
  | DistResult.unknown => Except.error "ValueError: invalid literal for int() with base 10: Unknown"

/-- Python s take-first-n slicing applied to an optional string: slicing
None raises TypeError. -/
def py_slice_prefix : Option String → ℕ → Except String String
  | some s, n => Except.ok (s.take n)
  | none, _ => Except.error "TypeError: NoneType object is not subscriptable"

/-- Python str interpolation of an optional string: None renders as None. -/
def py_str_of_opt : Option String → String
  | some s => s
  | none => "None"

/-- The three per-feature enrichment collaborator outcomes of
server.get_defibrillators: the route distance from the origin, the
reverse-geocoded address and the nearest building name. -/
structure DefibEnrichment where
  routeDistance : DistResult
  reverseAddress : Option String
  buildingName : Option String
deriving DecidableEq, Repr

/-- One iteration of the get_defibrillators node loop: int of the route
distance, then the report line slicing the reverse address to 30
characters; the tag reads default to Not known or the empty string. -/
def defib_node_line (fmt : ℚ → String) (node : OsmNode) (e : DefibEnrichment) :
    Except String String :=
  match py_int_of_dist e.routeDistance with
  | Except.error err => Except.error err
  | Except.ok distance_metres =>
    match py_slice_prefix e.reverseAddress 30 with
    | Except.error err => Except.error err
    | Except.ok addr30 =>
      Except.ok ("\n" ++ toString distance_metres ++ " metres away: " ++
        py_str_of_opt e.buildingName ++ " " ++ addr30 ++ " Latitude: " ++ fmt node.lat ++
        ", Longitude: " ++ fmt node.lon ++ ", Access: " ++ tagsGetD node.tags "access" "Not known" ++
        ", Inside: " ++ tagsGetD node.tags "indoor" "Not known" ++
        ", Find it: " ++ tagsGetD node.tags "defibrillator:location" "" ++
        " URL: https://openstreetmap.org/node/" ++ toString node.id)

/-- The get_defibrillators node loop: a raised exception propagates and
abandons the remaining nodes. -/
def defib_loop (fmt : ℚ → String) :
    List (OsmNode × DefibEnrichment) → String → Except String String
  | [], acc => Except.ok acc
  | (node, e) :: rest, acc =>
    match defib_node_line fmt node e with
    | Except.error err => Except.error err
    | Except.ok line => defib_loop fmt rest (acc ++ line)

/-- server.get_defibrillators from the point where the spatial query has
returned: the count line over the returned nodes followed by the
enrichment loop; each node is paired with its enrichment outcomes. -/
def get_defibrillators_text (fmt : ℚ → String) (nodes : List (OsmNode × DefibEnrichment))
    (distance : ℕ) (address : String) : Except String String :=
  defib_loop fmt nodes ("\n" ++ toString nodes.length ++
    " defibrillators found within " ++ toString distance ++ " metre radius of " ++ address ++ ".")

/-- The count line of server.get_irish_street_names, stated over the raw
way list of the spatial query response. -/
def irish_count_line (ways : List OsmWay) (distance : ℕ) (address : String) : String :=
  "\nFound " ++ toString ways.length ++ " thoroughfares with an Irish name within " ++
    toString distance ++ " metres of " ++ address ++ "."

/-- One emitted detail line of server.get_irish_street_names. -/
def irish_line (nm ga : OsmWay → String) (way : OsmWay) : String :=
  "\n " ++ ga way ++ ", " ++ nm way ++ ", URL: https://openstreetmap.org/node/" ++ toString way.id

/-- The deduplication loop of server.get_irish_street_names: a way is
emitted only when its primary name tag has not been observed yet; the
observed list grows in input order; a missing tag raises KeyError. -/
def irish_loop : List OsmWay → List String → String → Except String String
  | [], _, acc => Except.ok acc
  | way :: rest, observed_ways, acc =>
    match dictGetE way.tags "name" with
    | Except.error e => Except.error e
    | Except.ok name =>
      if name ∈ observed_ways then irish_loop rest observed_ways acc
      else
        match dictGetE way.tags "name:ga" with
        | Except.error e => Except.error e
        | Except.ok ga =>
          irish_loop rest (observed_ways ++ [name])
            (acc ++ "\n " ++ ga ++ ", " ++ name ++ ", URL: https://openstreetmap.org/node/" ++
              toString way.id)

/-- server.get_irish_street_names from the point where the spatial query
has returned its way list. -/
def get_irish_street_names_text (ways : List OsmWay) (distance : ℕ) (address : String) :
    Except String String :=
  irish_loop ways [] (irish_count_line ways distance address)

/-- Modelled from the spec: first-seen selection of the ways whose primary
name has not appeared before, in input order. -/
def firstSeenWays (nm : OsmWay → String) : List OsmWay → List String → List OsmWay
  | [], _ => []
  | w :: rest, seen =>
    if nm w ∈ seen then firstSeenWays nm rest seen
    else w :: firstSeenWays nm rest (seen ++ [nm w])

/-- Concatenation of a list of strings. -/
def strConcat : List String → String
  | [] => ""
  | s :: rest => s ++ strConcat rest

/-- The names defined at top level of puca/utils.py. -/
def utils_module_defs : List String :=
  ["setup_logger", "logger", "query_overpass", "get_building_name",
   "get_distance_between_points", "get_bounding_box", "get_bounds_by_address",
   "get_address_coordinates", "get_address_from_coordinates", "validate_coordinates"]

/-- The names server.py imports from puca.utils on lines 10 to 19. -/
def server_utils_imports : List String :=
  ["setup_logger", "get_address_coordinates", "get_address_from_coordinates",
   "get_bounds_by_address", "get_bounds_by_coords", "get_building_name",
   "get_distance_between_points", "validate_coordinates"]

/-- The query_overpass tool of server.py, fuel-indexed: in the module
namespace of server.py the name query_overpass denotes this very tool, so
the call on its own body line recurses into itself, and the body can only
produce a value if that recursive call produced one, which the final match
arm models; fuel bounds the recursion depth. -/
def server_query_overpass_tool (fuel : ℕ) (query : String) (lat lon : ℚ)
    (distance : ℕ) : Option String :=
  match fuel with
  | 0 => none
  | Nat.succ n =>
    match server_query_overpass_tool n query lat lon distance with
    | none => none
    | some result => some result

/-- A concrete way list with a repeated primary name, used to exercise the
Irish street-name report. -/
def irishExampleWays : List OsmWay :=
  [⟨1, [("name", "Main St"), ("name:ga", "An Phriomhshraid")]⟩,
   ⟨2, [("name", "Main St"), ("name:ga", "An Phriomhshraid")]⟩,
   ⟨3, [("name", "Church Rd"), ("name:ga", "Bothar an Teampaill")]⟩]

/-- Primary-name projection of a way, total on ways carrying the name tag. -/
def exampleNm : OsmWay → String := fun w => tagsGetD w.tags "name" ""

/-- Irish-name projection of a way, total on ways carrying the name:ga tag. -/
def exampleGa : OsmWay → String := fun w => tagsGetD w.tags "name:ga" ""

end Puca

open Puca

/-- String concatenation is associative. -/
theorem str_append_assoc (a b c : String) : a ++ b ++ c = a ++ (b ++ c) := by
  cases a; cases b; cases c
  show String.mk _ = String.mk _
  simp [String.append]

/-- A bound on the Python absolute value is a two-sided bound. -/
theorem ratAbs_le_iff (q b : ℚ) : ratAbs q ≤ b ↔ -b ≤ q ∧ q ≤ b := by
  unfold ratAbs
  split_ifs with h
  · constructor
    · intro hb; constructor <;> linarith
    · intro hb; linarith [hb.1]
  · constructor
    · intro hb; constructor <;> linarith
    · intro hb; exact hb.2

/-- Whenever get_bounding_box returns a box, its fields are the center
shifted by the two offsets, with the Point longitude normalization applied
to the corner longitudes. -/
theorem get_bounding_box_ok_shape (c lat lon distance : ℚ) (box : BoundingBox)
    (h : get_bounding_box c lat lon distance = Except.ok box) :
    box.top_left_lat = lat + distance / 111000 ∧
    box.bottom_right_lat = lat - distance / 111000 ∧
    box.top_left_lon = pyLonNormalize (lon - distance / (111000 * ratAbs c)) ∧
    box.bottom_right_lon = pyLonNormalize (lon + distance / (111000 * ratAbs c)) := by
  unfold get_bounding_box pointNew at h
  by_cases h1 : 90 < ratAbs lat
  · simp [h1] at h
  by_cases h2 : 90 < ratAbs (lat + distance / 111000)
  · simp [h1, h2] at h
  by_cases h3 : 90 < ratAbs (lat - distance / 111000)
  · simp [h1, h2, h3] at h
  simp [h1, h2, h3] at h
  obtain rfl := h
  exact ⟨rfl, rfl, rfl, rfl⟩

/-- When the three corner latitudes stay within range, get_bounding_box
returns a box rather than an error. -/
theorem get_bounding_box_ok_of_bounds (c lat lon distance : ℚ)
    (h1 : ratAbs lat ≤ 90)
    (h2 : ratAbs (lat + distance / 111000) ≤ 90)
    (h3 : ratAbs (lat - distance / 111000) ≤ 90) :
    get_bounding_box c lat lon distance =
      Except.ok
        { top_left_lat := lat + distance / 111000
          top_left_lon := pyLonNormalize (lon - distance / (111000 * ratAbs c))
          bottom_right_lat := lat - distance / 111000
          bottom_right_lon := pyLonNormalize (lon + distance / (111000 * ratAbs c)) } := by
  simp [get_bounding_box, pointNew, not_lt.mpr h1, not_lt.mpr h2, not_lt.mpr h3]

/-- Unfolding equation of firstSeenWays for an already observed name. -/
theorem firstSeenWays_cons_mem (nm : OsmWay → String) (w : OsmWay) (rest : List OsmWay)
    (seen : List String) (h : nm w ∈ seen) :
    firstSeenWays nm (w :: rest) seen = firstSeenWays nm rest seen := by
  conv_lhs => unfold firstSeenWays
  rw [if_pos h]

/-- Unfolding equation of firstSeenWays for a name seen for the first time. -/
theorem firstSeenWays_cons_not_mem (nm : OsmWay → String) (w : OsmWay) (rest : List OsmWay)
    (seen : List String) (h : nm w ∉ seen) :
    firstSeenWays nm (w :: rest) seen = w :: firstSeenWays nm rest (seen ++ [nm w]) := by
  conv_lhs => unfold firstSeenWays
  rw [if_neg h]

/-- When every way carries both name tags, the deduplication loop of the
Irish street-name report succeeds and appends exactly one line per
first-seen primary name, in input order. -/
theorem irish_loop_ok (nm ga : OsmWay → String) (ways : List OsmWay)
    (h : ∀ w ∈ ways, dictGetE w.tags "name" = Except.ok (nm w) ∧
        dictGetE w.tags "name:ga" = Except.ok (ga w)) :
    ∀ (observed : List String) (acc : String),
      irish_loop ways observed acc =
        Except.ok (acc ++ strConcat ((firstSeenWays nm ways observed).map (irish_line nm ga))) := by
  induction ways with
  | nil =>
    intro observed acc
    simp [irish_loop, firstSeenWays, strConcat]
  | cons w rest ih =>
    intro observed acc
    obtain ⟨hn, hg⟩ := h w (List.mem_cons_self w rest)
    have hrest : ∀ x ∈ rest, dictGetE x.tags "name" = Except.ok (nm x) ∧
        dictGetE x.tags "name:ga" = Except.ok (ga x) :=
      fun x hx => h x (List.mem_cons_of_mem w hx)
    by_cases hmem : nm w ∈ observed
    · simp only [irish_loop, hn, if_pos hmem]
      rw [firstSeenWays_cons_mem nm w rest observed hmem]
      exact ih hrest observed acc
    · simp only [irish_loop, hn, if_neg hmem, hg]
      rw [ih hrest (observed ++ [nm w]) _]
      rw [firstSeenWays_cons_not_mem nm w rest observed hmem]
      simp [strConcat, irish_line, str_append_assoc]

/-- Claim C1: the claim states that a failed per-feature enrichment lookup
degrades its field to a sentinel without aborting the feature or the batch.
The code instead wraps the route-distance lookup in int(), so the sentinel
string Unknown raises ValueError and the whole batch is abandoned: on a
batch of three defibrillator nodes whose second route-distance lookup
failed, get_defibrillators raises instead of reporting three lines. -/
theorem claim_C1_enrichmentAbort :
    get_defibrillators_text showRat
      [(⟨11, 54, -6, [("access", "yes")]⟩,
        ⟨DistResult.metres 42, some "1 Main Street, Newry", some "Town Hall"⟩),
       (⟨12, 54, -6, []⟩, ⟨DistResult.unknown, some "2 Main Street", some "Hall"⟩),
       (⟨13, 54, -6, []⟩, ⟨DistResult.metres 99, some "3 Main Street", none⟩)]
      300 "Newry" =
      Except.error "ValueError: invalid literal for int() with base 10: Unknown" := by
  decide

/-- Claim C2: the claim states that an unresolvable origin address yields a
single descriptive message and never a crash.  The code of
get_bounds_by_address builds the text Address not found but discards it and
dereferences the lat attribute of None, raising AttributeError, and
get_parking propagates that exception instead of returning a message. -/
theorem claim_C2_notFoundCrash :
    get_bounds_by_address showRat 1 none 100 =
      Except.error "AttributeError: NoneType object has no attribute lat" ∧
    get_parking showRat 1 none [] 100 "Nowhere" =
      Except.error "AttributeError: NoneType object has no attribute lat" := by
  constructor <;> decide

set_option maxRecDepth 4000 in
/-- Claim C3 counterexample: on the three ways named Main St, Main St,
Church Rd, the report emits exactly two detail lines in first-seen order,
but its count line states the raw feature count 3, not the deduplicated
count 2 the claim asserts. -/
theorem claim_C3_counterexample :
    get_irish_street_names_text irishExampleWays 100 "Newry" =
      Except.ok ("\nFound 3 thoroughfares with an Irish name within 100 metres of Newry.\n An Phriomhshraid, Main St, URL: https://openstreetmap.org/node/1\n Bothar an Teampaill, Church Rd, URL: https://openstreetmap.org/node/3") ∧
    irish_count_line irishExampleWays 100 "Newry" ≠
      "\nFound 2 thoroughfares with an Irish name within 100 metres of Newry." := by
  constructor <;> decide

/-- Claim C3 (amended): a way is emitted only the first time its primary
name tag value is seen, in input order, each line pairing the translated
name with the primary name, while the count line reports the raw feature
count, not the number of deduplicated entries. -/
theorem claim_C3_amendedDedup (nm ga : OsmWay → String) (ways : List OsmWay)
    (distance : ℕ) (address : String)
    (h : ∀ w ∈ ways, dictGetE w.tags "name" = Except.ok (nm w) ∧
        dictGetE w.tags "name:ga" = Except.ok (ga w)) :
    get_irish_street_names_text ways distance address =
      Except.ok (irish_count_line ways distance address ++
        strConcat ((firstSeenWays nm ways []).map (irish_line nm ga))) ∧
    irish_count_line ways distance address =
      "\nFound " ++ toString ways.length ++
        " thoroughfares with an Irish name within " ++ toString distance ++
        " metres of " ++ address ++ "." :=
  ⟨irish_loop_ok nm ga ways h [] (irish_count_line ways distance address), rfl⟩

/-- Claim C3 witness: the amended statement instantiated on the concrete
three-way example. -/
theorem claim_C3_witness :
    get_irish_street_names_text irishExampleWays 100 "Newry" =
      Except.ok (irish_count_line irishExampleWays 100 "Newry" ++
        strConcat ((firstSeenWays exampleNm irishExampleWays []).map
          (irish_line exampleNm exampleGa))) ∧
    irish_count_line irishExampleWays 100 "Newry" =
      "\nFound " ++ toString irishExampleWays.length ++
        " thoroughfares with an Irish name within " ++ toString 100 ++
        " metres of " ++ "Newry" ++ "." :=
  claim_C3_amendedDedup exampleNm exampleGa irishExampleWays 100 "Newry" (by decide)

/-- Claim C4 counterexample: at center latitude 0, longitude 180 and radius
111000 metres, where the cosine of the latitude is exactly 1, the code
returns bottom-right longitude -179, not the raw unwrapped value 181 the
claim asserts: the Point normalization wraps it into the range. -/
theorem claim_C4_counterexample :
    get_bounding_box 1 0 180 111000 =
      Except.ok { top_left_lat := 1, top_left_lon := 179,
                  bottom_right_lat := -1, bottom_right_lon := -179 } ∧
    (BoundingBox.mk 1 179 (-1) (-179)).bottom_right_lon ≠
      180 + 111000 / (111000 * ratAbs 1) := by
  constructor
  · decide
  · decide

/-- Claim C4 (amended): every box get_bounding_box returns has corner
latitudes equal to the center latitude shifted by distance over 111000
degrees and corner longitudes equal to the center longitude shifted by
distance over 111000 times the absolute cosine of the latitude, except
that a corner longitude whose absolute value exceeds 180 is wrapped into
the range from -180 inclusive to 180 exclusive by the Point normalization,
so a caller crossing the antimeridian receives wrapped, not raw, values. -/
theorem claim_C4_boxShape (c lat lon distance : ℚ) (box : BoundingBox)
    (h : get_bounding_box c lat lon distance = Except.ok box) :
    box.top_left_lat = lat + distance / 111000 ∧
    box.bottom_right_lat = lat - distance / 111000 ∧
    box.top_left_lon = pyLonNormalize (lon - distance / (111000 * ratAbs c)) ∧
    box.bottom_right_lon = pyLonNormalize (lon + distance / (111000 * ratAbs c)) :=
  get_bounding_box_ok_shape c lat lon distance box h

/-- Claim C4 witness: the amended statement instantiated at center
latitude 0, longitude 180, radius 111000 and cosine 1. -/
theorem claim_C4_boxShape_witness :
    (BoundingBox.mk 1 179 (-1) (-179)).top_left_lat = 0 + 111000 / 111000 ∧
    (BoundingBox.mk 1 179 (-1) (-179)).bottom_right_lat = 0 - 111000 / 111000 ∧
    (BoundingBox.mk 1 179 (-1) (-179)).top_left_lon =
      pyLonNormalize (180 - 111000 / (111000 * ratAbs 1)) ∧
    (BoundingBox.mk 1 179 (-1) (-179)).bottom_right_lon =
      pyLonNormalize (180 + 111000 / (111000 * ratAbs 1)) :=
  claim_C4_boxShape 1 0 180 111000 (BoundingBox.mk 1 179 (-1) (-179)) (by decide)

/-- Claim C5: every box produced with a nonnegative radius satisfies
top-left latitude at least bottom-right latitude, and for every center
latitude within 85 degrees of the equator and radius in the interval from
0 exclusive to 20000 metres inclusive a box is produced whose top-left
latitude is strictly greater than its bottom-right latitude. -/
theorem claim_C5_latInvariant (c lat lon distance : ℚ) :
    (∀ box, get_bounding_box c lat lon distance = Except.ok box →
      0 ≤ distance → box.bottom_right_lat ≤ box.top_left_lat) ∧
    (ratAbs lat ≤ 85 → 0 < distance → distance ≤ 20000 →
      ∃ box, get_bounding_box c lat lon distance = Except.ok box ∧
        box.bottom_right_lat < box.top_left_lat) := by
  constructor
  · intro box h hd
    obtain ⟨ht, hb, -, -⟩ := get_bounding_box_ok_shape c lat lon distance box h
    rw [ht, hb]
    have hpos : (0:ℚ) ≤ distance / 111000 := by positivity
    linarith
  · intro hlat hd1 hd2
    obtain ⟨hl1, hl2⟩ := (ratAbs_le_iff lat 85).mp hlat
    have hofflt : distance / 111000 < 1 := by
      rw [div_lt_one (by norm_num)]
      linarith
    have hoffpos : 0 < distance / 111000 := by positivity
    have h1 : ratAbs lat ≤ 90 := (ratAbs_le_iff lat 90).mpr ⟨by linarith, by linarith⟩
    have h2 : ratAbs (lat + distance / 111000) ≤ 90 :=
      (ratAbs_le_iff _ 90).mpr ⟨by linarith, by linarith⟩
    have h3 : ratAbs (lat - distance / 111000) ≤ 90 :=
      (ratAbs_le_iff _ 90).mpr ⟨by linarith, by linarith⟩
    refine ⟨_, get_bounding_box_ok_of_bounds c lat lon distance h1 h2 h3, ?_⟩
    simp only []
    linarith

/-- Claim C5 witness: the strict inequality at a concrete center and
radius inside the stated ranges. -/
theorem claim_C5_witness :
    ∃ box, get_bounding_box 1 54 (-6) 100 = Except.ok box ∧
      box.bottom_right_lat < box.top_left_lat :=
  (claim_C5_latInvariant 1 54 (-6) 100).2 (by decide) (by decide) (by decide)

/-- Claim C6: the query document built by query_overpass equals the fixed
spec template in which the four bounding parameters appear, between the
output-format and the output-verbosity directives, in the positional order
south latitude, west longitude, north latitude, east longitude, realized
as bottom-right latitude, top-left longitude, top-left latitude,
bottom-right longitude; being a pure function of its inputs, the
construction is deterministic. -/
theorem claim_C6_queryTemplate (fmt : ℚ → String) (query : String) (bb : BoundingBox) :
    query_overpass_doc fmt query bb =
      overpass_template_spec fmt query bb.bottom_right_lat bb.top_left_lon
        bb.top_left_lat bb.bottom_right_lon := rfl

/-- Claim C7: a category name outside the fixed six-element amenity set
makes get_amenity return the error value carrying the offending name and
issue no spatial query, while every member of the set resolves to a filter
fragment and issues exactly the one query document built from it. -/
theorem claim_C7_categoryRegistry (fmt : ℚ → String) (amenity : String) (bb : BoundingBox) :
    (amenity ∉ amenityCategories →
      get_amenity fmt amenity bb =
        AmenityResult.invalid ("Amenity " ++ amenity ++ " is not valid.") ∧
      queriesIssued (get_amenity fmt amenity bb) = []) ∧
    (∀ q, amenity_query_string amenity = some q →
      queriesIssued (get_amenity fmt amenity bb) = [query_overpass_doc fmt q bb]) ∧
    (amenity ∈ amenityCategories → ∃ q, amenity_query_string amenity = some q) := by
  refine ⟨?_, ?_, ?_⟩
  · intro hnot
    have h : amenity_query_string amenity = none := by
      unfold amenity_query_string
      split_ifs with h1 h2 h3 h4 h5 h6 <;> simp_all [amenityCategories]
    simp [get_amenity, h, queriesIssued]
  · intro q hq
    simp [get_amenity, hq, queriesIssued]
  · intro hmem
    unfold amenity_query_string
    fin_cases hmem <;> simp

/-- Claim C7 witness: the unknown category swimming_pool short-circuits
with the error value and no query, and the category parking issues exactly
its query document. -/
theorem claim_C7_witness :
    (get_amenity showRat "swimming_pool" ⟨1, 2, 3, 4⟩ =
      AmenityResult.invalid ("Amenity " ++ "swimming_pool" ++ " is not valid.") ∧
      queriesIssued (get_amenity showRat "swimming_pool" ⟨1, 2, 3, 4⟩) = []) ∧
    queriesIssued (get_amenity showRat "parking" ⟨1, 2, 3, 4⟩) =
      [query_overpass_doc showRat "nwr[\"amenity\"=\"parking\"]" ⟨1, 2, 3, 4⟩] :=
  ⟨(claim_C7_categoryRegistry showRat "swimming_pool" ⟨1, 2, 3, 4⟩).1 (by decide),
   (claim_C7_categoryRegistry showRat "parking" ⟨1, 2, 3, 4⟩).2.1
     "nwr[\"amenity\"=\"parking\"]" (by decide)⟩

/-- Claim C8: the vacant-buildings report states a density ratio equal to
the match count divided by the area in square kilometres, the area being
pi times the squared radius over one million; the ratio is rendered with
two decimal places, a radius of 100 metres with five matches rendering as
159.15, and a radius of 0 reports the ratio 0 instead of dividing by
zero. -/
theorem claim_C8_densityRatio (nWays : ℕ) (distance : ℚ) :
    ((0 < area_sq_km distance →
        vacant_ratio nWays distance = (nWays : ℚ) / area_sq_km distance) ∧
      area_sq_km distance = piFloat * (distance * distance) / 1000000 ∧
      vacant_ratio nWays 0 = 0) ∧
    (fmt2dp (vacant_ratio 5 100) = "159.15" ∧
      vacant_ratio_line 5 100 =
        "This corresponds to a ratio of 159.15 vacant buildings per square kilometer.\n") := by
  refine ⟨⟨?_, rfl, ?_⟩, by decide, by decide⟩
  · intro h
    simp [vacant_ratio, h]
  · unfold vacant_ratio
    rw [if_neg (by decide)]

/-- Claim C8 witness: the division form of the ratio at radius 100 with
five matches, and its two-decimal rendering. -/
theorem claim_C8_witness :
    vacant_ratio 5 100 = (5 : ℚ) / area_sq_km 100 ∧
    fmt2dp (vacant_ratio 5 100) = "159.15" :=
  ⟨(claim_C8_densityRatio 5 100).1.1 (by decide),
   (claim_C8_densityRatio 5 100).2.1⟩

/-- Claim C10: the raw-query tool of server.py never returns a result: the
name get_bounds_by_coords it calls first is imported from puca.utils but
not defined there, the utils helper query_overpass is not imported into
server.py, so the call in the tool body resolves to the tool itself, and
the fuel-indexed model of that recursion yields no value at any depth. -/
theorem claim_C10_rawQueryNeverReturns :
    ("get_bounds_by_coords" ∈ server_utils_imports ∧
     "get_bounds_by_coords" ∉ utils_module_defs ∧
     "query_overpass" ∈ utils_module_defs ∧
     "query_overpass" ∉ server_utils_imports) ∧
    ∀ (fuel : ℕ) (query : String) (lat lon : ℚ) (distance : ℕ),
      server_query_overpass_tool fuel query lat lon distance = none := by
  refine ⟨by decide, ?_⟩
  intro fuel query lat lon distance
  induction fuel with
  | zero => rfl
  | succ n ih => unfold server_query_overpass_tool; rw [ih]
